import Mathlib

/-!
Shallow embedding of `stream_data_realtime.py` (HighVolumeStreamer), the
high-volume ClickHouse streaming loop, together with proofs of the spec's
claims about it.

Modelling conventions:
* The ClickHouse sink is abstract: each HTTP round trip is a `SinkResult`,
  either `ok body` (2xx response with that body) or `err` (any raised
  exception: network failure, timeout, or `raise_for_status` on a non-2xx
  status).  `execute_query` is the translation of the method of the same
  name: it strips the body on success and swallows every exception,
  returning the empty string.
* Python's unbounded `int` is `Int`; monetary values (`random.uniform`
  results and `round(x, 2)`) are modelled in `ℚ`.
* Randomness is an oracle: each generator takes a structure of draw
  streams, one stream per `random.*` call site, indexed by the offset of
  the record in its batch.  `random.randint a b` is uniform on `[a, b]`
  and raises (modelled as `none`) when `a > b`; `random.random()` draws
  are rationals assumed (where a claim needs it) to lie in `[0, 1)`.
* Wall-clock datetimes are integers counting UTC milliseconds.
-/

namespace StreamRealtime

/-- STREAM_INTERVAL = 1 (seconds); as `ℚ` since it enters float arithmetic. -/
def STREAM_INTERVAL : ℚ := 1

/-- BATCH_SIZE_EVENTS = 100. -/
def BATCH_SIZE_EVENTS : Nat := 100

/-- BATCH_SIZE_ORDERS = 20. -/
def BATCH_SIZE_ORDERS : Nat := 20

/-- MAX_WORKERS = 4. -/
def MAX_WORKERS : Nat := 4

/-- Outcome of one HTTP request to the sink: a 2xx response with a body, or
any raised exception (connection error, timeout, non-2xx status). -/
inductive SinkResult where
  | ok (body : String)
  | err

/-- Python `str.strip()`: remove leading and trailing whitespace. -/
def pyStrip (s : String) : String :=
  String.mk (((s.toList.dropWhile Char.isWhitespace).reverse.dropWhile
    Char.isWhitespace).reverse)

/-- `execute_query` (lines 63-77): on a 2xx response return
`response.text.strip()`; on any exception print a warning and return `""`. -/
def execute_query (r : SinkResult) : String :=
  match r with
  | SinkResult.ok body => pyStrip body
  | SinkResult.err => ""

/-- Digits-only string to `Nat` (`none` if empty or a non-digit occurs). -/
def digitsToNat (l : List Char) : Option Nat :=
  if l ≠ [] ∧ l.all Char.isDigit then
    some (l.foldl (fun a c => a * 10 + (c.toNat - 48)) 0)
  else none

/-- Python `int(s)` on a string: strip whitespace, optional sign, then a
nonempty digit run; raises `ValueError` (here `none`) otherwise.
(Underscore digit separators are not modelled.) -/
def pyInt (s : String) : Option Int :=
  match (pyStrip s).toList with
  | '-' :: rest => (digitsToNat rest).map (fun n => -(n : Int))
  | '+' :: rest => (digitsToNat rest).map (fun n => (n : Int))
  | l => (digitsToNat l).map (fun n => (n : Int))

/-- `get_table_count` (lines 79-85): `int(result) if result else 0` inside a
`try`, with a bare `except` returning 0 — empty and unparseable responses
both degrade to 0. -/
def get_table_count (r : SinkResult) : Int :=
  let result := execute_query r
  if result = "" then 0 else (pyInt result).getD 0

/-- `get_user_count` (lines 87-89): `get_table_count("users")`. -/
def get_user_count (r : SinkResult) : Int := get_table_count r

/-- `get_product_count` (lines 91-93): `get_table_count("products")`. -/
def get_product_count (r : SinkResult) : Int := get_table_count r

/-- The `int(self.execute_query("SELECT max(...) ...") or 0)` pattern of
`run` (lines 298-299): an empty response (falsy) becomes `int(0)`, but a
non-empty response goes through `int(...)` with no local handler, so an
unparseable body raises `ValueError` out of the cycle (`none`). -/
def runParseMax (r : SinkResult) : Option Int :=
  let s := execute_query r
  if s = "" then some 0 else pyInt s

/-- One generated event record (the dict built at lines 146-158).
`event_timestamp` is kept as the generated datetime (UTC milliseconds);
its second-resolution string rendering for the INSERT is not modelled. -/
structure Event where
  event_id : Int
  user_id : Int
  event_type : String
  event_timestamp : Int
  page_url : String
  session_id : String
  device_type : String
  browser : String
  country : String
  duration_seconds : Int
  revenue : ℚ

/-- One generated order record (the dict built at lines 192-202).
`order_date` is the calendar date of `order_timestamp`, modelled as the
day index `⌊ms / 86400000⌋`. -/
structure Order where
  order_id : Int
  user_id : Int
  product_id : Int
  quantity : Int
  order_date : Int
  order_timestamp : Int
  total_amount : ℚ
  status : String
  payment_method : String

/-- `insert_events` (lines 206-229): empty batch is a no-op success;
otherwise build the bulk INSERT (the SQL text itself does not influence
control flow and is elided — the sink is abstract), execute it, treat an
empty response as success, and on success bump the cumulative counter by
the batch length.  Returns (success, new total_events_inserted). -/
def insert_events (r : SinkResult) (events : List Event)
    (total_events_inserted : Nat) : Bool × Nat :=
  if events.isEmpty then (true, total_events_inserted)
  else
    let result := execute_query r
    let success : Bool := result = ""
    (success,
      if success then total_events_inserted + events.length
      else total_events_inserted)

/-- `insert_orders` (lines 231-253): same shape as `insert_events` over the
orders counter. -/
def insert_orders (r : SinkResult) (orders : List Order)
    (total_orders_inserted : Nat) : Bool × Nat :=
  if orders.isEmpty then (true, total_orders_inserted)
  else
    let result := execute_query r
    let success : Bool := result = ""
    (success,
      if success then total_orders_inserted + orders.length
      else total_orders_inserted)

/-- A fixed event record used to instantiate theorems at concrete inputs. -/
def sampleEvent : Event :=
  { event_id := 1, user_id := 1, event_type := "click", event_timestamp := 0,
    page_url := "/action/click", session_id := "sess-1-0",
    device_type := "desktop", browser := "Chrome", country := "US",
    duration_seconds := 10, revenue := 0 }

/-- A fixed order record used to instantiate theorems at concrete inputs. -/
def sampleOrder : Order :=
  { order_id := 1, user_id := 1, product_id := 1, quantity := 1,
    order_date := 0, order_timestamp := 0, total_amount := 50,
    status := "completed", payment_method := "paypal" }

/-- `random.randint a b`: uniform integer in `[a, b]` inclusive; raises
`ValueError` (`none`) when the range is empty.  The abstract draw `r` is
folded into the range. -/
def pyRandint (a b : Int) (r : Nat) : Option Int :=
  if a ≤ b then some (a + (r % (b - a + 1).toNat : Nat)) else none

/-- Total value of `pyRandint` on a nonempty range. -/
def pyRandintD (a b : Int) (r : Nat) : Int :=
  a + (r % (b - a + 1).toNat : Nat)

/-- `random.uniform a b = a + (b - a) * random()` with `random() = r`. -/
def pyUniform (a b r : ℚ) : ℚ := a + (b - a) * r

/-- Python `round` to the nearest integer, ties to even (banker's
rounding), on a rational. -/
def pyRoundInt (s : ℚ) : ℤ :=
  let f := ⌊s⌋
  if s - f > 1 / 2 then f + 1
  else if s - f < 1 / 2 then f
  else if f % 2 = 0 then f else f + 1

/-- Python `round(x, 2)`: round to two decimal digits, ties to even. -/
def pyRound2 (q : ℚ) : ℚ := (pyRoundInt (q * 100) : ℚ) / 100

/-- `random.choice l`: uniform element of `l`; raises `IndexError` on an
empty list.  The abstract draw `r` is folded into the index range. -/
def pyChoice (l : List α) (r : Nat) : Option α := l[r % l.length]?

/-- Total value of `pyChoice` on a nonempty list. -/
def pyChoiceD [Inhabited α] (l : List α) (r : Nat) : α :=
  l.getD (r % l.length) default

/-- Linear-scan form of `bisect.bisect_right(cum_weights, x, 0, hi)` with
`hi = len - 1`, as used inside `random.choices`: pick the first item whose
cumulative weight strictly exceeds `x`, clamping to the last item. -/
def cumPick : List (α × ℚ) → ℚ → ℚ → Option α
  | [], _, _ => none
  | (s, w) :: rest, acc, x =>
    match rest with
    | [] => some s
    | _ :: _ => if x < acc + w then some s else cumPick rest (acc + w) x

/-- Total value of `cumPick` on a nonempty list. -/
def cumPickD [Inhabited α] : List (α × ℚ) → ℚ → ℚ → α
  | [], _, _ => default
  | (s, w) :: rest, acc, x =>
    match rest with
    | [] => s
    | _ :: _ => if x < acc + w then s else cumPickD rest (acc + w) x

/-- `random.choices(items, weights)[0]`: one weighted draw — scale the
`random()` draw `r` by the weight total and search the cumulative table. -/
def pyChoicesW (items : List (α × ℚ)) (r : ℚ) : Option α :=
  cumPick items 0 (r * (items.map Prod.snd).sum)

/-- Total value of `pyChoicesW` on a nonempty list. -/
def pyChoicesWD [Inhabited α] (items : List (α × ℚ)) (r : ℚ) : α :=
  cumPickD items 0 (r * (items.map Prod.snd).sum)

/-- The `event_weights` table (lines 109-120), in dict insertion order. -/
def event_weights : List (String × ℚ) :=
  [("page_view", 0.40), ("click", 0.20), ("search", 0.15),
   ("add_to_cart", 0.08), ("purchase", 0.10), ("remove_from_cart", 0.02),
   ("login", 0.02), ("logout", 0.01), ("signup", 0.01), ("share", 0.01)]

/-- `device_types` (line 101). -/
def device_types : List String := ["desktop", "mobile", "tablet"]

/-- `browsers` (line 102). -/
def browsers : List String := ["Chrome", "Firefox", "Safari", "Edge", "Opera"]

/-- `countries` (line 103). -/
def countries : List String :=
  ["US", "UK", "DE", "FR", "CA", "AU", "JP", "BR", "IN", "RU"]

/-- `pages` (lines 104-105). -/
def pages : List String :=
  ["/home", "/products", "/cart", "/checkout", "/profile", "/search",
   "/category/electronics", "/category/books", "/deals", "/about"]

/-- `statuses` zipped with `status_weights` (lines 166, 170). -/
def status_items : List (String × ℚ) :=
  [("completed", 0.75), ("pending", 0.15), ("cancelled", 0.07),
   ("refunded", 0.03)]

/-- The quantity population `[1..5]` zipped with its weights (line 178). -/
def quantity_items : List (Int × ℚ) :=
  [(1, 0.5), (2, 0.25), (3, 0.15), (4, 0.07), (5, 0.03)]

/-- `payment_methods` (line 167). -/
def payment_methods : List String :=
  ["credit_card", "paypal", "bank_transfer", "apple_pay", "google_pay"]

/-- Oracle of random draws for one events batch: one stream per `random.*`
call site of `generate_events_batch`, indexed by the in-batch offset `i`. -/
structure EventDraws where
  userR : Nat → Nat
  typeR : Nat → ℚ
  jitterR : Nat → Nat
  revU : Nat → ℚ
  coin : Nat → ℚ
  pageR : Nat → Nat
  deviceR : Nat → Nat
  browserR : Nat → Nat
  countryR : Nat → Nat
  durationR : Nat → Nat

/-- Oracle of random draws for one orders batch, one stream per `random.*`
call site of `generate_orders_batch`. -/
structure OrderDraws where
  userR : Nat → Nat
  prodR : Nat → Nat
  qtyR : Nat → ℚ
  jitterR : Nat → Nat
  statusR : Nat → ℚ
  amtFlip : Nat → ℚ
  amtU : Nat → ℚ
  payR : Nat → Nat

/-- The `page_url` expression of the event dict (line 151):
`random.choice(pages) if event_type == 'page_view' else f"/action/{event_type}"`. -/
def pageDraw (event_type : String) (r : Nat) : Option String :=
  if event_type = "page_view" then pyChoice pages r
  else some ("/action/" ++ event_type)

/-- Total value of `pageDraw`. -/
def pageDrawD (event_type : String) (r : Nat) : String :=
  if event_type = "page_view" then pyChoiceD pages r
  else "/action/" ++ event_type

/-- The `revenue` computation (lines 139-144): purchases always draw from
`uniform(20, 500)`; add-to-cart draws from `uniform(10, 200)` on a 50%
coin flip and is 0 otherwise; every other type keeps revenue 0. -/
def eventRevenue (event_type : String) (coin u : ℚ) : ℚ :=
  if event_type = "purchase" then pyRound2 (pyUniform 20 500 u)
  else if event_type = "add_to_cart" then
    if coin < 1 / 2 then pyRound2 (pyUniform 10 200 u) else 0
  else 0

/-- The body of the events loop (lines 124-158) for offset `i`: one event,
`none` if any `random.randint` range is empty.  `now` is the batch's UTC
generation time in milliseconds; the session bucket is
`int(now.timestamp() / 300)`, i.e. `now` truncated to 300-second buckets. -/
def genEvent (d : EventDraws) (batch_num : Nat) (user_count max_event_id now : Int)
    (i : Nat) : Option Event :=
  let event_id := max_event_id + (batch_num : Int) * (BATCH_SIZE_EVENTS : Int)
    + (i : Int) + 1
  (pyRandint 1 user_count (d.userR i)).bind fun user_id =>
  (pyChoicesW event_weights (d.typeR i)).bind fun event_type =>
  (pyRandint 0 1000 (d.jitterR i)).bind fun jitter =>
  let event_timestamp := now - jitter
  let session_id := "sess-" ++ toString user_id ++ "-"
    ++ toString ((now.tdiv 1000).tdiv 300)
  let revenue := eventRevenue event_type (d.coin i) (d.revU i)
  (pageDraw event_type (d.pageR i)).bind fun page_url =>
  (pyChoice device_types (d.deviceR i)).bind fun device_type =>
  (pyChoice browsers (d.browserR i)).bind fun browser =>
  (pyChoice countries (d.countryR i)).bind fun country =>
  (pyRandint 1 300 (d.durationR i)).bind fun duration_seconds =>
  some { event_id := event_id, user_id := user_id, event_type := event_type,
         event_timestamp := event_timestamp, page_url := page_url,
         session_id := session_id, device_type := device_type,
         browser := browser, country := country,
         duration_seconds := duration_seconds, revenue := revenue }

/-- Total value of `genEvent` (meaningful when `1 ≤ user_count`). -/
def genEventPure (d : EventDraws) (batch_num : Nat)
    (user_count max_event_id now : Int) (i : Nat) : Event :=
  let event_id := max_event_id + (batch_num : Int) * (BATCH_SIZE_EVENTS : Int)
    + (i : Int) + 1
  let user_id := pyRandintD 1 user_count (d.userR i)
  let event_type := pyChoicesWD event_weights (d.typeR i)
  let jitter := pyRandintD 0 1000 (d.jitterR i)
  let event_timestamp := now - jitter
  let session_id := "sess-" ++ toString user_id ++ "-"
    ++ toString ((now.tdiv 1000).tdiv 300)
  let revenue := eventRevenue event_type (d.coin i) (d.revU i)
  let page_url := pageDrawD event_type (d.pageR i)
  let device_type := pyChoiceD device_types (d.deviceR i)
  let browser := pyChoiceD browsers (d.browserR i)
  let country := pyChoiceD countries (d.countryR i)
  let duration_seconds := pyRandintD 1 300 (d.durationR i)
  { event_id := event_id, user_id := user_id, event_type := event_type,
    event_timestamp := event_timestamp, page_url := page_url,
    session_id := session_id, device_type := device_type,
    browser := browser, country := country,
    duration_seconds := duration_seconds, revenue := revenue }

/-- The `total_amount` computation (lines 187-190): 90% of orders in
`uniform(50, 200)`, 10% in `uniform(200, 1000)`, both rounded to cents. -/
def orderAmount (flip u : ℚ) : ℚ :=
  if flip < 9 / 10 then pyRound2 (pyUniform 50 200 u)
  else pyRound2 (pyUniform 200 1000 u)

/-- The body of the orders loop (lines 174-202) for offset `i`.
`order_date` is `order_timestamp.date()`, modelled as the floor day index
of the millisecond timestamp. -/
def genOrder (g : OrderDraws) (batch_num : Nat)
    (user_count product_count max_order_id now : Int) (i : Nat) : Option Order :=
  let order_id := max_order_id + (batch_num : Int) * (BATCH_SIZE_ORDERS : Int)
    + (i : Int) + 1
  (pyRandint 1 user_count (g.userR i)).bind fun user_id =>
  (pyRandint 1 product_count (g.prodR i)).bind fun product_id =>
  (pyChoicesW quantity_items (g.qtyR i)).bind fun quantity =>
  (pyRandint 0 1000 (g.jitterR i)).bind fun jitter =>
  let order_timestamp := now - jitter
  let order_date := order_timestamp.fdiv 86400000
  (pyChoicesW status_items (g.statusR i)).bind fun status =>
  let total_amount := orderAmount (g.amtFlip i) (g.amtU i)
  (pyChoice payment_methods (g.payR i)).bind fun payment_method =>
  some { order_id := order_id, user_id := user_id, product_id := product_id,
         quantity := quantity, order_date := order_date,
         order_timestamp := order_timestamp, total_amount := total_amount,
         status := status, payment_method := payment_method }

/-- Total value of `genOrder` (meaningful when both populations are ≥ 1). -/
def genOrderPure (g : OrderDraws) (batch_num : Nat)
    (user_count product_count max_order_id now : Int) (i : Nat) : Order :=
  let order_id := max_order_id + (batch_num : Int) * (BATCH_SIZE_ORDERS : Int)
    + (i : Int) + 1
  let user_id := pyRandintD 1 user_count (g.userR i)
  let product_id := pyRandintD 1 product_count (g.prodR i)
  let quantity := pyChoicesWD quantity_items (g.qtyR i)
  let jitter := pyRandintD 0 1000 (g.jitterR i)
  let order_timestamp := now - jitter
  let order_date := order_timestamp.fdiv 86400000
  let status := pyChoicesWD status_items (g.statusR i)
  let total_amount := orderAmount (g.amtFlip i) (g.amtU i)
  let payment_method := pyChoiceD payment_methods (g.payR i)
  { order_id := order_id, user_id := user_id, product_id := product_id,
    quantity := quantity, order_date := order_date,
    order_timestamp := order_timestamp, total_amount := total_amount,
    status := status, payment_method := payment_method }

/-- A `for i in range(...)` append loop whose body may raise: generate
`count` records starting at offset `start`, stopping at the first failure. -/
def genFrom (f : Nat → Option α) : Nat → Nat → Option (List α)
  | _, 0 => some []
  | s, k + 1 =>
    (f s).bind fun a =>
    (genFrom f (s + 1) k).bind fun rest =>
    some (a :: rest)

/-- `generate_events_batch` (lines 95-160): `BATCH_SIZE_EVENTS` events for
cycle `batch_num` on top of `max_event_id`. -/
def generate_events_batch (d : EventDraws) (batch_num : Nat)
    (user_count max_event_id now : Int) : Option (List Event) :=
  genFrom (genEvent d batch_num user_count max_event_id now) 0 BATCH_SIZE_EVENTS

/-- `generate_orders_batch` (lines 162-204): `BATCH_SIZE_ORDERS` orders for
cycle `batch_num` on top of `max_order_id`. -/
def generate_orders_batch (g : OrderDraws) (batch_num : Nat)
    (user_count product_count max_order_id now : Int) : Option (List Order) :=
  genFrom (genOrder g batch_num user_count product_count max_order_id now)
    0 BATCH_SIZE_ORDERS

/-- Environment of one loop iteration: the value of the shared `running`
flag observed at the `while self.running` boundary check (the signal
handler only ever clears it), the four sink round trips of the cycle, the
random draws, and the cycle's generation time. -/
structure CycleEnv where
  running : Bool
  maxEventResp : SinkResult
  maxOrderResp : SinkResult
  eventInsertResp : SinkResult
  orderInsertResp : SinkResult
  eventDraws : EventDraws
  orderDraws : OrderDraws
  now : Int

/-- Mutable orchestrator state across cycles: `batch_counter` and the two
cumulative insert counters, plus a tally of generated batches. -/
structure LoopState where
  batch_counter : Nat
  total_events_inserted : Nat
  total_orders_inserted : Nat
  batches_generated : Nat

/-- One cycle body (lines 295-323): read both max ids, generate both
batches, run both inserts (the two futures are both joined before the
cycle ends, so their effects are sequenced here), bump `batch_counter`.
`none` models an exception escaping the body to the `except` at the
orchestrator boundary. -/
def cycleBody (user_count product_count : Int) (e : CycleEnv)
    (st : LoopState) : Option LoopState :=
  (runParseMax e.maxEventResp).bind fun max_event_id =>
  (runParseMax e.maxOrderResp).bind fun max_order_id =>
  (generate_events_batch e.eventDraws st.batch_counter user_count
    max_event_id e.now).bind fun events =>
  (generate_orders_batch e.orderDraws st.batch_counter user_count
    product_count max_order_id e.now).bind fun orders =>
  some { batch_counter := st.batch_counter + 1,
         total_events_inserted :=
           (insert_events e.eventInsertResp events st.total_events_inserted).2,
         total_orders_inserted :=
           (insert_orders e.orderInsertResp orders st.total_orders_inserted).2,
         batches_generated := st.batches_generated + 2 }

/-- The `while self.running` loop (lines 294-334) over a finite schedule of
cycle environments: stop when the flag is observed clear at a boundary, or
when a cycle body raises (the exception is caught at the `run` boundary). -/
def runLoop (user_count product_count : Int) :
    List CycleEnv → LoopState → LoopState
  | [], st => st
  | e :: rest, st =>
    if e.running then
      match cycleBody user_count product_count e st with
      | some st2 => runLoop user_count product_count rest st2
      | none => st
    else st

/-- Observable outcome of `run` (lines 275-344). `final_stats_reports`
counts executions of the `finally` block's `show_throughput_stats()`. -/
structure RunResult where
  loop_entered : Bool
  cycles_completed : Nat
  batches_generated : Nat
  total_events_inserted : Nat
  total_orders_inserted : Nat
  final_stats_reports : Nat

/-- `run` (lines 275-344): read the user and product populations; if either
is zero return before the loop (the `finally` still flushes stats once);
otherwise drive the cycle loop and flush stats once on exit. -/
def run (userResp prodResp : SinkResult) (envs : List CycleEnv) : RunResult :=
  let user_count := get_user_count userResp
  let product_count := get_product_count prodResp
  if user_count = 0 ∨ product_count = 0 then
    { loop_entered := false, cycles_completed := 0, batches_generated := 0,
      total_events_inserted := 0, total_orders_inserted := 0,
      final_stats_reports := 1 }
  else
    let st := runLoop user_count product_count envs
      { batch_counter := 0, total_events_inserted := 0,
        total_orders_inserted := 0, batches_generated := 0 }
    { loop_entered := true, cycles_completed := st.batch_counter,
      batches_generated := st.batches_generated,
      total_events_inserted := st.total_events_inserted,
      total_orders_inserted := st.total_orders_inserted,
      final_stats_reports := 1 }

/-- End-of-cycle pacing (lines 331-332): `max(0, STREAM_INTERVAL - elapsed)`. -/
def sleep_time (elapsed : ℚ) : ℚ := max 0 (STREAM_INTERVAL - elapsed)

/-- Whether `time.sleep` is called at all (line 333: `if sleep_time > 0`). -/
def sleepPerformed (elapsed : ℚ) : Bool := 0 < sleep_time elapsed

/-- All-zero event draw streams, for instantiating theorems. -/
def zeroEventDraws : EventDraws :=
  { userR := fun _ => 0, typeR := fun _ => 0, jitterR := fun _ => 0,
    revU := fun _ => 0, coin := fun _ => 0, pageR := fun _ => 0,
    deviceR := fun _ => 0, browserR := fun _ => 0, countryR := fun _ => 0,
    durationR := fun _ => 0 }

/-- All-zero order draw streams, for instantiating theorems. -/
def zeroOrderDraws : OrderDraws :=
  { userR := fun _ => 0, prodR := fun _ => 0, qtyR := fun _ => 0,
    jitterR := fun _ => 0, statusR := fun _ => 0, amtFlip := fun _ => 0,
    amtU := fun _ => 0, payR := fun _ => 0 }

/-- A cycle environment whose boundary check observes the cleared flag. -/
def envHalted : CycleEnv :=
  { running := false, maxEventResp := SinkResult.err,
    maxOrderResp := SinkResult.err, eventInsertResp := SinkResult.err,
    orderInsertResp := SinkResult.err, eventDraws := zeroEventDraws,
    orderDraws := zeroOrderDraws, now := 0 }

/-- A cycle environment whose max-id read returns a non-numeric scalar. -/
def envBadScalar : CycleEnv :=
  { running := true, maxEventResp := SinkResult.ok "abc",
    maxOrderResp := SinkResult.ok "0", eventInsertResp := SinkResult.err,
    orderInsertResp := SinkResult.err, eventDraws := zeroEventDraws,
    orderDraws := zeroOrderDraws, now := 0 }

lemma pyRandint_eq_of_le {a b : Int} (h : a ≤ b) (r : Nat) :
    pyRandint a b r = some (pyRandintD a b r) := by
  simp [pyRandint, pyRandintD, h]

lemma pyRandint_none {a b : Int} (h : b < a) (r : Nat) :
    pyRandint a b r = none := by
  simp [pyRandint, not_le.mpr h]

lemma pyRandint_jitter (r : Nat) :
    pyRandint 0 1000 r = some (pyRandintD 0 1000 r) :=
  pyRandint_eq_of_le (by norm_num) r

lemma pyRandint_duration (r : Nat) :
    pyRandint 1 300 r = some (pyRandintD 1 300 r) :=
  pyRandint_eq_of_le (by norm_num) r

lemma pyChoice_eq [Inhabited α] (l : List α) (h : l ≠ []) (r : Nat) :
    pyChoice l r = some (pyChoiceD l r) := by
  have hm : r % l.length < l.length := Nat.mod_lt _ (List.length_pos.mpr h)
  simp [pyChoice, pyChoiceD, List.getElem?_eq_getElem hm,
    List.getD_eq_getElem?_getD]

lemma cumPick_eq [Inhabited α] :
    ∀ l : List (α × ℚ), l ≠ [] → ∀ acc x,
      cumPick l acc x = some (cumPickD l acc x) := by
  intro l
  induction l with
  | nil => intro h; exact absurd rfl h
  | cons hd tl ih =>
    intro _ acc x
    obtain ⟨s, w⟩ := hd
    cases tl with
    | nil => rfl
    | cons b t =>
      show (if x < acc + w then some s else cumPick (b :: t) (acc + w) x) =
        some (if x < acc + w then s else cumPickD (b :: t) (acc + w) x)
      split_ifs with hx
      · rfl
      · exact ih (List.cons_ne_nil _ _) (acc + w) x

lemma pyChoicesW_eq [Inhabited α] (items : List (α × ℚ)) (h : items ≠ [])
    (r : ℚ) : pyChoicesW items r = some (pyChoicesWD items r) :=
  cumPick_eq items h 0 _

lemma pyChoicesW_events (r : ℚ) :
    pyChoicesW event_weights r = some (pyChoicesWD event_weights r) :=
  pyChoicesW_eq event_weights (by simp [event_weights]) r

lemma pyChoicesW_quantity (r : ℚ) :
    pyChoicesW quantity_items r = some (pyChoicesWD quantity_items r) :=
  pyChoicesW_eq quantity_items (by simp [quantity_items]) r

lemma pyChoicesW_status (r : ℚ) :
    pyChoicesW status_items r = some (pyChoicesWD status_items r) :=
  pyChoicesW_eq status_items (by simp [status_items]) r

lemma pyChoice_devices (r : Nat) :
    pyChoice device_types r = some (pyChoiceD device_types r) :=
  pyChoice_eq device_types (by simp [device_types]) r

lemma pyChoice_browsers (r : Nat) :
    pyChoice browsers r = some (pyChoiceD browsers r) :=
  pyChoice_eq browsers (by simp [browsers]) r

lemma pyChoice_countries (r : Nat) :
    pyChoice countries r = some (pyChoiceD countries r) :=
  pyChoice_eq countries (by simp [countries]) r

lemma pyChoice_payments (r : Nat) :
    pyChoice payment_methods r = some (pyChoiceD payment_methods r) :=
  pyChoice_eq payment_methods (by simp [payment_methods]) r

lemma pageDraw_eq (t : String) (r : Nat) :
    pageDraw t r = some (pageDrawD t r) := by
  unfold pageDraw pageDrawD
  split_ifs with h
  · exact pyChoice_eq pages (by simp [pages]) r
  · rfl

lemma genEvent_eq (d : EventDraws) (n : Nat) (u mx now : Int) (i : Nat)
    (h : 1 ≤ u) :
    genEvent d n u mx now i = some (genEventPure d n u mx now i) := by
  simp only [genEvent, genEventPure, pyRandint_eq_of_le h, pyRandint_jitter,
    pyRandint_duration, pyChoicesW_events, pageDraw_eq, pyChoice_devices,
    pyChoice_browsers, pyChoice_countries, Option.some_bind]

lemma genOrder_eq (g : OrderDraws) (n : Nat) (u p mo now : Int) (i : Nat)
    (hu : 1 ≤ u) (hp : 1 ≤ p) :
    genOrder g n u p mo now i = some (genOrderPure g n u p mo now i) := by
  simp only [genOrder, genOrderPure, pyRandint_eq_of_le hu,
    pyRandint_eq_of_le hp, pyRandint_jitter, pyChoicesW_quantity,
    pyChoicesW_status, pyChoice_payments, Option.some_bind]

lemma genEvent_user_zero (d : EventDraws) (n : Nat) (mx now : Int) (i : Nat) :
    genEvent d n 0 mx now i = none := by
  simp only [genEvent, pyRandint_none (show (0:Int) < 1 by norm_num),
    Option.none_bind]

lemma genOrder_prod_zero (g : OrderDraws) (n : Nat) (u mo now : Int)
    (i : Nat) : genOrder g n u 0 mo now i = none := by
  rcases le_or_lt 1 u with hu | hu
  · simp only [genOrder, pyRandint_eq_of_le hu,
      pyRandint_none (show (0:Int) < 1 by norm_num), Option.some_bind,
      Option.none_bind]
  · simp only [genOrder, pyRandint_none hu, Option.none_bind]

lemma genFrom_eq (f : Nat → Option α) (g : Nat → α)
    (h : ∀ i, f i = some (g i)) :
    ∀ c s, genFrom f s c = some ((List.range c).map (fun j => g (s + j))) := by
  intro c
  induction c with
  | zero => intro s; rfl
  | succ k ih =>
    intro s
    simp only [genFrom, h s, Option.some_bind, ih (s + 1),
      List.range_succ_eq_map, List.map_cons, List.map_map, Option.some.injEq,
      List.cons.injEq]
    constructor
    · exact congrArg g (by omega)
    · apply List.map_congr_left
      intro a _
      exact congrArg g (by omega)

lemma genFrom_none (f : Nat → Option α) (s : Nat) (h : f s = none)
    {c : Nat} (hc : 0 < c) : genFrom f s c = none := by
  cases c with
  | zero => omega
  | succ k => simp [genFrom, h]

lemma generate_events_batch_eq (d : EventDraws) (n : Nat) (u mx now : Int)
    (h : 1 ≤ u) :
    generate_events_batch d n u mx now =
      some ((List.range BATCH_SIZE_EVENTS).map (genEventPure d n u mx now)) := by
  unfold generate_events_batch
  rw [genFrom_eq _ _ (fun i => genEvent_eq d n u mx now i h)]
  simp

lemma generate_orders_batch_eq (g : OrderDraws) (n : Nat) (u p mo now : Int)
    (hu : 1 ≤ u) (hp : 1 ≤ p) :
    generate_orders_batch g n u p mo now =
      some ((List.range BATCH_SIZE_ORDERS).map
        (genOrderPure g n u p mo now)) := by
  unfold generate_orders_batch
  rw [genFrom_eq _ _ (fun i => genOrder_eq g n u p mo now i hu hp)]
  simp

lemma generate_events_batch_user_zero (d : EventDraws) (n : Nat)
    (mx now : Int) : generate_events_batch d n 0 mx now = none :=
  genFrom_none _ 0 (genEvent_user_zero d n mx now 0)
    (by norm_num [BATCH_SIZE_EVENTS])

lemma generate_orders_batch_prod_zero (g : OrderDraws) (n : Nat)
    (u mo now : Int) : generate_orders_batch g n u 0 mo now = none :=
  genFrom_none _ 0 (genOrder_prod_zero g n u mo now 0)
    (by norm_num [BATCH_SIZE_ORDERS])

lemma pyRandintD_jitter_bounds (r : Nat) :
    0 ≤ pyRandintD 0 1000 r ∧ pyRandintD 0 1000 r ≤ 1000 := by
  have h : r % 1001 < 1001 := Nat.mod_lt _ (by norm_num)
  unfold pyRandintD
  norm_num
  omega

lemma le_pyRoundInt {A : ℤ} {s : ℚ} (h : (A : ℚ) ≤ s) : A ≤ pyRoundInt s := by
  have hf : A ≤ ⌊s⌋ := Int.le_floor.mpr h
  simp only [pyRoundInt]
  split_ifs <;> omega

lemma pyRoundInt_le {B : ℤ} {s : ℚ} (h : s ≤ (B : ℚ)) : pyRoundInt s ≤ B := by
  have hf : ⌊s⌋ ≤ B := by
    have := Int.floor_le_floor h
    simpa using this
  simp only [pyRoundInt]
  split_ifs with h1 h2 h3
  · rcases eq_or_lt_of_le hf with he | hl
    · exfalso
      rw [he] at h1
      have hs : s - (B : ℚ) ≤ 0 := by linarith
      linarith
    · omega
  · omega
  · omega
  · rcases eq_or_lt_of_le hf with he | hl
    · exfalso
      rw [he] at h1 h2
      have hs : s - (B : ℚ) ≤ 0 := by linarith
      linarith
    · omega

lemma pyRound2_bounds (a b : ℤ) {q : ℚ} (ha : (a : ℚ) ≤ q)
    (hb : q ≤ (b : ℚ)) :
    (a : ℚ) ≤ pyRound2 q ∧ pyRound2 q ≤ (b : ℚ) := by
  have h1 : a * 100 ≤ pyRoundInt (q * 100) :=
    le_pyRoundInt (by push_cast; linarith)
  have h2 : pyRoundInt (q * 100) ≤ b * 100 :=
    pyRoundInt_le (by push_cast; linarith)
  unfold pyRound2
  constructor
  · rw [le_div_iff₀ (by norm_num : (0:ℚ) < 100)]
    exact_mod_cast h1
  · rw [div_le_iff₀ (by norm_num : (0:ℚ) < 100)]
    exact_mod_cast h2

lemma pyUniform_bounds {a b r : ℚ} (hab : a ≤ b) (h0 : 0 ≤ r) (h1 : r < 1) :
    a ≤ pyUniform a b r ∧ pyUniform a b r ≤ b := by
  unfold pyUniform
  constructor
  · nlinarith
  · nlinarith

lemma genEventPure_event_id (d : EventDraws) (n : Nat) (u mx now : Int)
    (i : Nat) :
    (genEventPure d n u mx now i).event_id =
      mx + (n : Int) * (BATCH_SIZE_EVENTS : Int) + (i : Int) + 1 := rfl

lemma genEventPure_timestamp (d : EventDraws) (n : Nat) (u mx now : Int)
    (i : Nat) :
    (genEventPure d n u mx now i).event_timestamp =
      now - pyRandintD 0 1000 (d.jitterR i) := rfl

lemma genEventPure_event_type (d : EventDraws) (n : Nat) (u mx now : Int)
    (i : Nat) :
    (genEventPure d n u mx now i).event_type =
      pyChoicesWD event_weights (d.typeR i) := rfl

lemma genEventPure_revenue (d : EventDraws) (n : Nat) (u mx now : Int)
    (i : Nat) :
    (genEventPure d n u mx now i).revenue =
      eventRevenue (pyChoicesWD event_weights (d.typeR i)) (d.coin i)
        (d.revU i) := rfl

lemma genOrderPure_order_id (g : OrderDraws) (n : Nat) (u p mo now : Int)
    (i : Nat) :
    (genOrderPure g n u p mo now i).order_id =
      mo + (n : Int) * (BATCH_SIZE_ORDERS : Int) + (i : Int) + 1 := rfl

lemma genOrderPure_timestamp (g : OrderDraws) (n : Nat) (u p mo now : Int)
    (i : Nat) :
    (genOrderPure g n u p mo now i).order_timestamp =
      now - pyRandintD 0 1000 (g.jitterR i) := rfl

lemma events_ids_formula (d : EventDraws) (n : Nat) (u mx now : Int) :
    ((List.range BATCH_SIZE_EVENTS).map (genEventPure d n u mx now)).map
      Event.event_id =
    (List.range BATCH_SIZE_EVENTS).map
      (fun i : Nat => mx + (n : Int) * (BATCH_SIZE_EVENTS : Int) + (i : Int) + 1) := by
  rw [List.map_map]
  rfl

lemma orders_ids_formula (g : OrderDraws) (n : Nat) (u p mo now : Int) :
    ((List.range BATCH_SIZE_ORDERS).map (genOrderPure g n u p mo now)).map
      Order.order_id =
    (List.range BATCH_SIZE_ORDERS).map
      (fun i : Nat => mo + (n : Int) * (BATCH_SIZE_ORDERS : Int) + (i : Int) + 1) := by
  rw [List.map_map]
  rfl

lemma range_map_ids_pairwise (B : Nat) (c : Int) :
    ((List.range B).map (fun i : Nat => c + (i : Int) + 1)).Pairwise (· < ·) := by
  refine (List.pairwise_map).mpr ?_
  refine (List.pairwise_lt_range B).imp ?_
  intro a b hab
  omega

lemma range_map_ids_cross (B B2 : Nat) (c c2 : Int) (h : c + B ≤ c2) :
    ∀ a ∈ (List.range B).map (fun i : Nat => c + (i : Int) + 1),
    ∀ b ∈ (List.range B2).map (fun i : Nat => c2 + (i : Int) + 1), a < b := by
  intro a ha b hb
  simp only [List.mem_map, List.mem_range] at ha hb
  obtain ⟨i, hi, rfl⟩ := ha
  obtain ⟨j, hj, rfl⟩ := hb
  have hiB : (i : Int) < (B : Int) := by exact_mod_cast hi
  have hj0 : (0 : Int) ≤ (j : Int) := Int.natCast_nonneg j
  linarith

lemma cycleBody_batch_counter {u p : Int} {e : CycleEnv} {st st2 : LoopState}
    (h : cycleBody u p e st = some st2) :
    st2.batch_counter = st.batch_counter + 1 := by
  simp only [cycleBody, Option.bind_eq_some, Option.some.injEq] at h
  obtain ⟨mE, _, mO, _, evs, _, ords, _, heq⟩ := h
  subst heq
  rfl

lemma runLoop_counter_le (u p : Int) :
    ∀ (envs : List CycleEnv) (st : LoopState) (j : Nat) (e : CycleEnv),
      envs[j]? = some e → e.running = false →
      (runLoop u p envs st).batch_counter ≤ st.batch_counter + j := by
  intro envs
  induction envs with
  | nil => intro st j e h; simp at h
  | cons a rest ih =>
    intro st j e hj hr
    cases j with
    | zero =>
      simp only [List.getElem?_cons_zero, Option.some.injEq] at hj
      subst hj
      simp [runLoop, hr]
    | succ k =>
      have hj' : rest[k]? = some e := by simpa using hj
      by_cases hr2 : a.running
      · rcases hb : cycleBody u p a st with _ | st2
        · simp [runLoop, hr2, hb]
        · simp only [runLoop, hr2, if_true, hb]
          have h1 := ih st2 k e hj' hr
          have h2 := cycleBody_batch_counter hb
          omega
      · simp [runLoop, hr2]

/-- C1: for a bulk-insert call on a non-empty batch, a result of `false`
leaves the cumulative counter unchanged and a result of `true` increases it
by exactly the batch length, for both `insert_events` and `insert_orders`. -/
theorem insert_counters_exact (r : SinkResult) (evs : List Event)
    (ords : List Order) (te tor : Nat) (hev : evs ≠ []) (hor : ords ≠ []) :
    ((insert_events r evs te).1 = true →
      (insert_events r evs te).2 = te + evs.length) ∧
    ((insert_events r evs te).1 = false →
      (insert_events r evs te).2 = te) ∧
    ((insert_orders r ords tor).1 = true →
      (insert_orders r ords tor).2 = tor + ords.length) ∧
    ((insert_orders r ords tor).1 = false →
      (insert_orders r ords tor).2 = tor) := by
  have hev' : evs.isEmpty = false := by
    cases evs with
    | nil => exact absurd rfl hev
    | cons a l => rfl
  have hor' : ords.isEmpty = false := by
    cases ords with
    | nil => exact absurd rfl hor
    | cons a l => rfl
  by_cases hq : execute_query r = "" <;>
    simp [insert_events, insert_orders, hev', hor', hq]

/-- C1 witness: the theorem applied at a concrete non-empty batch. -/
theorem insert_counters_exact_witness :
    ((insert_events SinkResult.err [sampleEvent] 0).1 = true →
      (insert_events SinkResult.err [sampleEvent] 0).2 = 0 + [sampleEvent].length) ∧
    ((insert_events SinkResult.err [sampleEvent] 0).1 = false →
      (insert_events SinkResult.err [sampleEvent] 0).2 = 0) ∧
    ((insert_orders SinkResult.err [sampleOrder] 0).1 = true →
      (insert_orders SinkResult.err [sampleOrder] 0).2 = 0 + [sampleOrder].length) ∧
    ((insert_orders SinkResult.err [sampleOrder] 0).1 = false →
      (insert_orders SinkResult.err [sampleOrder] 0).2 = 0) :=
  insert_counters_exact SinkResult.err [sampleEvent] [sampleOrder] 0 0
    (List.cons_ne_nil _ _) (List.cons_ne_nil _ _)

/-- C2 (code evaluated at the failing input): when the HTTP request raises
(transport error or non-2xx status), `execute_query` swallows the exception
and returns the empty string — the success sentinel — so `insert_events` /
`insert_orders` on a non-empty batch report `true` and increment their
counters, contradicting the claim that a transport error is reported to the
caller as a failure. -/
theorem transport_error_reported_as_success :
    execute_query SinkResult.err = "" ∧
    insert_events SinkResult.err [sampleEvent] 0 = (true, 1) ∧
    insert_orders SinkResult.err [sampleOrder] 0 = (true, 1) :=
  ⟨rfl, rfl, rfl⟩

/-- C3: event and order ids follow the formula
`max_existing_id + cycle_index * batch_size + offset + 1`, are strictly
increasing within a batch, and two consecutive cycles' batches never
overlap provided the later cycle starts from a max id at least as large. -/
theorem ids_formula_and_monotone (d d2 : EventDraws) (g g2 : OrderDraws)
    (n : Nat) (u p mxE mxE2 mxO mxO2 now now2 : Int)
    (hu : 1 ≤ u) (hp : 1 ≤ p) (hE : mxE ≤ mxE2) (hO : mxO ≤ mxO2) :
    ∃ e1 e2 o1 o2,
      generate_events_batch d n u mxE now = some e1 ∧
      generate_events_batch d2 (n + 1) u mxE2 now2 = some e2 ∧
      generate_orders_batch g n u p mxO now = some o1 ∧
      generate_orders_batch g2 (n + 1) u p mxO2 now2 = some o2 ∧
      e1.map Event.event_id = (List.range BATCH_SIZE_EVENTS).map
        (fun i : Nat =>
          mxE + (n : Int) * (BATCH_SIZE_EVENTS : Int) + (i : Int) + 1) ∧
      o1.map Order.order_id = (List.range BATCH_SIZE_ORDERS).map
        (fun i : Nat =>
          mxO + (n : Int) * (BATCH_SIZE_ORDERS : Int) + (i : Int) + 1) ∧
      (e1.map Event.event_id).Pairwise (· < ·) ∧
      (o1.map Order.order_id).Pairwise (· < ·) ∧
      (∀ a ∈ e1.map Event.event_id, ∀ b ∈ e2.map Event.event_id, a < b) ∧
      (∀ a ∈ o1.map Order.order_id, ∀ b ∈ o2.map Order.order_id, a < b) := by
  refine ⟨_, _, _, _, generate_events_batch_eq d n u mxE now hu,
    generate_events_batch_eq d2 (n + 1) u mxE2 now2 hu,
    generate_orders_batch_eq g n u p mxO now hu hp,
    generate_orders_batch_eq g2 (n + 1) u p mxO2 now2 hu hp,
    events_ids_formula d n u mxE now, orders_ids_formula g n u p mxO now,
    ?_, ?_, ?_, ?_⟩
  · rw [events_ids_formula]
    exact range_map_ids_pairwise _ _
  · rw [orders_ids_formula]
    exact range_map_ids_pairwise _ _
  · rw [events_ids_formula, events_ids_formula]
    apply range_map_ids_cross
    push_cast
    ring_nf
    linarith
  · rw [orders_ids_formula, orders_ids_formula]
    apply range_map_ids_cross
    push_cast
    ring_nf
    linarith

/-- C3 witness: the theorem applied at concrete populations and max ids. -/
theorem ids_formula_and_monotone_witness :
    (1 : Int) ≤ 1 ∧ (0 : Int) ≤ 0 ∧
    (∃ e1 e2 o1 o2,
      generate_events_batch zeroEventDraws 0 1 0 0 = some e1 ∧
      generate_events_batch zeroEventDraws (0 + 1) 1 0 0 = some e2 ∧
      generate_orders_batch zeroOrderDraws 0 1 1 0 0 = some o1 ∧
      generate_orders_batch zeroOrderDraws (0 + 1) 1 1 0 0 = some o2 ∧
      e1.map Event.event_id = (List.range BATCH_SIZE_EVENTS).map
        (fun i : Nat =>
          0 + ((0 : Nat) : Int) * (BATCH_SIZE_EVENTS : Int) + (i : Int) + 1) ∧
      o1.map Order.order_id = (List.range BATCH_SIZE_ORDERS).map
        (fun i : Nat =>
          0 + ((0 : Nat) : Int) * (BATCH_SIZE_ORDERS : Int) + (i : Int) + 1) ∧
      (e1.map Event.event_id).Pairwise (· < ·) ∧
      (o1.map Order.order_id).Pairwise (· < ·) ∧
      (∀ a ∈ e1.map Event.event_id, ∀ b ∈ e2.map Event.event_id, a < b) ∧
      (∀ a ∈ o1.map Order.order_id, ∀ b ∈ o2.map Order.order_id, a < b)) :=
  ⟨le_refl 1, le_refl 0,
    ids_formula_and_monotone zeroEventDraws zeroEventDraws zeroOrderDraws
      zeroOrderDraws 0 1 1 0 0 0 0 0 0 (le_refl 1) (le_refl 1) (le_refl 0)
      (le_refl 0)⟩

/-- C7: every generated event and order timestamp lies within the last
1000 milliseconds of the batch generation time `now`. -/
theorem timestamps_within_last_second (d : EventDraws) (g : OrderDraws)
    (n : Nat) (u p mx mo now : Int) (hu : 1 ≤ u) (hp : 1 ≤ p) :
    ∃ evs ords,
      generate_events_batch d n u mx now = some evs ∧
      generate_orders_batch g n u p mo now = some ords ∧
      (∀ e ∈ evs, now - 1000 ≤ e.event_timestamp ∧ e.event_timestamp ≤ now) ∧
      (∀ o ∈ ords,
        now - 1000 ≤ o.order_timestamp ∧ o.order_timestamp ≤ now) := by
  refine ⟨_, _, generate_events_batch_eq d n u mx now hu,
    generate_orders_batch_eq g n u p mo now hu hp, ?_, ?_⟩
  · intro e he
    simp only [List.mem_map, List.mem_range] at he
    obtain ⟨i, _, rfl⟩ := he
    rw [genEventPure_timestamp]
    have hj := pyRandintD_jitter_bounds (d.jitterR i)
    omega
  · intro o ho
    simp only [List.mem_map, List.mem_range] at ho
    obtain ⟨i, _, rfl⟩ := ho
    rw [genOrderPure_timestamp]
    have hj := pyRandintD_jitter_bounds (g.jitterR i)
    omega

/-- C7 witness: the theorem applied at a concrete oracle and `now = 0`. -/
theorem timestamps_within_last_second_witness :
    (1 : Int) ≤ 1 ∧
    (∃ evs ords,
      generate_events_batch zeroEventDraws 0 1 0 0 = some evs ∧
      generate_orders_batch zeroOrderDraws 0 1 1 0 0 = some ords ∧
      (∀ e ∈ evs,
        (0 : Int) - 1000 ≤ e.event_timestamp ∧ e.event_timestamp ≤ 0) ∧
      (∀ o ∈ ords,
        (0 : Int) - 1000 ≤ o.order_timestamp ∧ o.order_timestamp ≤ 0)) :=
  ⟨le_refl 1, timestamps_within_last_second zeroEventDraws zeroOrderDraws
    0 1 1 0 0 0 (le_refl 1) (le_refl 1)⟩

/-- C8: per generated event, a `purchase` always carries nonzero revenue in
`[20, 500]`; an `add_to_cart` carries nonzero revenue exactly when its 50%
coin flip (`random() < 0.5`) succeeds; every other event type has revenue
exactly 0. -/
theorem revenue_by_event_type (d : EventDraws) (n : Nat) (u mx now : Int)
    (hu : 1 ≤ u) (hwf : ∀ i, 0 ≤ d.revU i ∧ d.revU i < 1) :
    ∃ evs, generate_events_batch d n u mx now = some evs ∧
      evs.length = BATCH_SIZE_EVENTS ∧
      ∀ i (hi : i < evs.length),
        ((evs.get ⟨i, hi⟩).event_type = "purchase" →
          20 ≤ (evs.get ⟨i, hi⟩).revenue ∧ (evs.get ⟨i, hi⟩).revenue ≤ 500 ∧
          (evs.get ⟨i, hi⟩).revenue ≠ 0) ∧
        ((evs.get ⟨i, hi⟩).event_type = "add_to_cart" →
          ((evs.get ⟨i, hi⟩).revenue ≠ 0 ↔ d.coin i < 1 / 2)) ∧
        ((evs.get ⟨i, hi⟩).event_type ≠ "purchase" →
          (evs.get ⟨i, hi⟩).event_type ≠ "add_to_cart" →
          (evs.get ⟨i, hi⟩).revenue = 0) := by
  refine ⟨_, generate_events_batch_eq d n u mx now hu, by simp, ?_⟩
  intro i hi
  have hget : ((List.range BATCH_SIZE_EVENTS).map
      (genEventPure d n u mx now)).get ⟨i, hi⟩ =
      genEventPure d n u mx now i := by
    simp
  rw [hget, genEventPure_event_type, genEventPure_revenue]
  obtain ⟨hr0, hr1⟩ := hwf i
  refine ⟨?_, ?_, ?_⟩
  · intro hpur
    rw [hpur, show eventRevenue "purchase" (d.coin i) (d.revU i) =
      pyRound2 (pyUniform 20 500 (d.revU i)) from rfl]
    have hb := pyUniform_bounds (by norm_num : (20:ℚ) ≤ 500) hr0 hr1
    have h2 := pyRound2_bounds 20 500 (by exact_mod_cast hb.1)
      (by exact_mod_cast hb.2)
    have h20 : (20:ℚ) ≤ pyRound2 (pyUniform 20 500 (d.revU i)) := by
      exact_mod_cast h2.1
    refine ⟨h20, by exact_mod_cast h2.2, ?_⟩
    intro hz
    rw [hz] at h20
    linarith
  · intro hcart
    rw [hcart, show eventRevenue "add_to_cart" (d.coin i) (d.revU i) =
      (if d.coin i < 1 / 2 then pyRound2 (pyUniform 10 200 (d.revU i)) else 0)
      from rfl]
    by_cases hcoin : d.coin i < 1 / 2
    · simp only [if_pos hcoin]
      have hb := pyUniform_bounds (by norm_num : (10:ℚ) ≤ 200) hr0 hr1
      have h2 := pyRound2_bounds 10 200 (by exact_mod_cast hb.1)
        (by exact_mod_cast hb.2)
      have h10 : (10:ℚ) ≤ pyRound2 (pyUniform 10 200 (d.revU i)) := by
        exact_mod_cast h2.1
      constructor
      · intro _
        exact hcoin
      · intro _ hz
        rw [hz] at h10
        linarith
    · simp only [if_neg hcoin]
      constructor
      · intro h0
        exact absurd rfl h0
      · intro hc2
        exact absurd hc2 hcoin
  · intro hnp hnc
    simp only [eventRevenue, if_neg hnp, if_neg hnc]

/-- C8 witness: the theorem applied at a concrete oracle. -/
theorem revenue_by_event_type_witness :
    (1 : Int) ≤ 1 ∧
    (∀ i, 0 ≤ zeroEventDraws.revU i ∧ zeroEventDraws.revU i < 1) ∧
    (∃ evs, generate_events_batch zeroEventDraws 0 1 0 0 = some evs ∧
      evs.length = BATCH_SIZE_EVENTS ∧
      ∀ i (hi : i < evs.length),
        ((evs.get ⟨i, hi⟩).event_type = "purchase" →
          20 ≤ (evs.get ⟨i, hi⟩).revenue ∧ (evs.get ⟨i, hi⟩).revenue ≤ 500 ∧
          (evs.get ⟨i, hi⟩).revenue ≠ 0) ∧
        ((evs.get ⟨i, hi⟩).event_type = "add_to_cart" →
          ((evs.get ⟨i, hi⟩).revenue ≠ 0 ↔ zeroEventDraws.coin i < 1 / 2)) ∧
        ((evs.get ⟨i, hi⟩).event_type ≠ "purchase" →
          (evs.get ⟨i, hi⟩).event_type ≠ "add_to_cart" →
          (evs.get ⟨i, hi⟩).revenue = 0)) :=
  ⟨le_refl 1, fun i => ⟨le_refl 0, show (0:ℚ) < 1 by norm_num⟩,
    revenue_by_event_type zeroEventDraws 0 1 0 0 (le_refl 1)
      (fun i => ⟨le_refl 0, show (0:ℚ) < 1 by norm_num⟩)⟩

/-- C4 (amended): the `count()` path (`get_table_count`) degrades both an
empty and a non-numeric response to 0; the in-loop max-id reads degrade
only an empty response to 0 — a non-empty non-numeric response raises out
of the cycle body, ending the loop. -/
theorem scalar_parse_degradation :
    (∀ r, execute_query r = "" → get_table_count r = 0) ∧
    (∀ r s, execute_query r = s → s ≠ "" → pyInt s = none →
      get_table_count r = 0) ∧
    (∀ r, execute_query r = "" → runParseMax r = some 0) ∧
    (∀ r s, execute_query r = s → s ≠ "" → pyInt s = none →
      runParseMax r = none) ∧
    (∀ (u p : Int) (e : CycleEnv) (st : LoopState),
      runParseMax e.maxEventResp = none → cycleBody u p e st = none) := by
  refine ⟨?_, ?_, ?_, ?_, ?_⟩
  · intro r h
    simp [get_table_count, h]
  · intro r s he hne hp
    simp [get_table_count, he, hne, hp]
  · intro r h
    simp [runParseMax, h]
  · intro r s he hne hp
    simp [runParseMax, he, hne, hp]
  · intro u p e st h
    simp [cycleBody, h]

/-- C4 witness: the amended theorem applied at concrete responses. -/
theorem scalar_parse_degradation_witness :
    get_table_count SinkResult.err = 0 ∧
    get_table_count (SinkResult.ok "xy") = 0 ∧
    runParseMax SinkResult.err = some 0 ∧
    runParseMax (SinkResult.ok "xy") = none :=
  ⟨scalar_parse_degradation.1 SinkResult.err rfl,
   scalar_parse_degradation.2.1 (SinkResult.ok "xy") "xy" rfl
     (by decide) (by decide),
   scalar_parse_degradation.2.2.1 SinkResult.err rfl,
   scalar_parse_degradation.2.2.2.1 (SinkResult.ok "xy") "xy" rfl
     (by decide) (by decide)⟩

/-- C4 counterexample to the claim as stated: a non-numeric `max(event_id)`
response does not degrade to 0 — it raises (`none`), and the cycle it
occurs in aborts the loop: with the flag still set and a one-cycle
schedule whose max-id read returns `"abc"`, zero cycles complete. -/
theorem scalar_parse_claim_counterexample :
    runParseMax (SinkResult.ok "abc") = none ∧
    envBadScalar.running = true ∧
    (run (SinkResult.ok "5") (SinkResult.ok "5")
      [envBadScalar]).loop_entered = true ∧
    (run (SinkResult.ok "5") (SinkResult.ok "5")
      [envBadScalar]).cycles_completed = 0 := by
  refine ⟨by decide, rfl, by decide, by decide⟩

/-- C5: after the shutdown flag is observed clear at boundary check `j`,
the loop has completed at most `j` cycles (so at most one more full cycle
after the signal arrives mid-cycle `j - 1`), and the final stats report is
emitted exactly once on every exit path of `run`. -/
theorem shutdown_cycle_bound :
    (∀ (uR pR : SinkResult) (envs : List CycleEnv),
      (run uR pR envs).final_stats_reports = 1) ∧
    (∀ (uR pR : SinkResult) (envs : List CycleEnv) (j : Nat) (e : CycleEnv),
      envs[j]? = some e → e.running = false →
      (run uR pR envs).cycles_completed ≤ j) := by
  constructor
  · intro uR pR envs
    by_cases h : get_user_count uR = 0 ∨ get_product_count pR = 0 <;>
      simp [run, h]
  · intro uR pR envs j e hj hr
    by_cases h : get_user_count uR = 0 ∨ get_product_count pR = 0
    · simp [run, h]
    · have hb := runLoop_counter_le (get_user_count uR)
        (get_product_count pR) envs
        { batch_counter := 0, total_events_inserted := 0,
          total_orders_inserted := 0, batches_generated := 0 } j e hj hr
      simp only [run]
      rw [if_neg h]
      simpa using hb

/-- C5 witness: the theorem applied to a one-cycle schedule whose boundary
check observes the cleared flag. -/
theorem shutdown_cycle_bound_witness :
    ([envHalted][0]? = some envHalted) ∧ envHalted.running = false ∧
    (run SinkResult.err SinkResult.err [envHalted]).cycles_completed ≤ 0 ∧
    (run SinkResult.err SinkResult.err [envHalted]).final_stats_reports = 1 :=
  ⟨rfl, rfl,
    shutdown_cycle_bound.2 SinkResult.err SinkResult.err [envHalted] 0
      envHalted rfl rfl,
    shutdown_cycle_bound.1 SinkResult.err SinkResult.err [envHalted]⟩

/-- C6: the scheduler sleeps `max(0, STREAM_INTERVAL − elapsed)`; when the
cycle's work meets or exceeds the interval the sleep duration is 0 and
`time.sleep` is not called, and otherwise it sleeps the exact remainder. -/
theorem pacing_no_sleep_when_overrun (e : ℚ) :
    sleep_time e = max 0 (STREAM_INTERVAL - e) ∧
    (STREAM_INTERVAL ≤ e → sleep_time e = 0 ∧ sleepPerformed e = false) ∧
    (e < STREAM_INTERVAL →
      sleep_time e = STREAM_INTERVAL - e ∧ sleepPerformed e = true) := by
  refine ⟨rfl, fun h => ?_, fun h => ?_⟩
  · have h0 : sleep_time e = 0 := max_eq_left (by linarith)
    exact ⟨h0, by simp [sleepPerformed, h0]⟩
  · have h0 : sleep_time e = STREAM_INTERVAL - e := max_eq_right (by linarith)
    refine ⟨h0, ?_⟩
    simp only [sleepPerformed, h0, decide_eq_true_eq]
    linarith

/-- C6 witness: the theorem applied at `elapsed = 2 > STREAM_INTERVAL`. -/
theorem pacing_no_sleep_witness :
    STREAM_INTERVAL ≤ (2 : ℚ) ∧ sleep_time 2 = 0 ∧ sleepPerformed 2 = false :=
  ⟨by norm_num [STREAM_INTERVAL],
    ((pacing_no_sleep_when_overrun 2).2.1 (by norm_num [STREAM_INTERVAL])).1,
    ((pacing_no_sleep_when_overrun 2).2.1 (by norm_num [STREAM_INTERVAL])).2⟩

/-- C9: when the sink reports zero users or zero products at startup,
`run` returns before the streaming loop begins: no cycle runs, no batch is
generated, nothing is inserted (and the `finally` stats flush still
happens once). -/
theorem startup_gate (uR pR : SinkResult) (envs : List CycleEnv)
    (h : get_user_count uR = 0 ∨ get_product_count pR = 0) :
    run uR pR envs =
      { loop_entered := false, cycles_completed := 0, batches_generated := 0,
        total_events_inserted := 0, total_orders_inserted := 0,
        final_stats_reports := 1 } := by
  simp [run, h]

/-- C9 witness: the theorem applied to a sink that reports zero users. -/
theorem startup_gate_witness :
    (get_user_count SinkResult.err = 0 ∨
      get_product_count SinkResult.err = 0) ∧
    run SinkResult.err SinkResult.err [] =
      { loop_entered := false, cycles_completed := 0, batches_generated := 0,
        total_events_inserted := 0, total_orders_inserted := 0,
        final_stats_reports := 1 } :=
  ⟨Or.inl rfl, startup_gate SinkResult.err SinkResult.err [] (Or.inl rfl)⟩

/-- C10: with populations ≥ 1 both generators are total (every randint
range is nonempty); with a zero population the generator's draw fails
(`none`); and the startup gate keeps the loop (hence the generators) from
ever running in that case. -/
theorem generators_population_safety :
    (∀ (d : EventDraws) (n : Nat) (u mx now : Int), 1 ≤ u →
      (generate_events_batch d n u mx now).isSome = true) ∧
    (∀ (g : OrderDraws) (n : Nat) (u p mo now : Int), 1 ≤ u → 1 ≤ p →
      (generate_orders_batch g n u p mo now).isSome = true) ∧
    (∀ (d : EventDraws) (n : Nat) (mx now : Int),
      generate_events_batch d n 0 mx now = none) ∧
    (∀ (g : OrderDraws) (n : Nat) (u mo now : Int),
      generate_orders_batch g n u 0 mo now = none) ∧
    (∀ (uR pR : SinkResult) (envs : List CycleEnv),
      get_user_count uR = 0 ∨ get_product_count pR = 0 →
      (run uR pR envs).loop_entered = false ∧
      (run uR pR envs).batches_generated = 0) := by
  refine ⟨?_, ?_, ?_, ?_, ?_⟩
  · intro d n u mx now hu
    rw [generate_events_batch_eq d n u mx now hu]
    rfl
  · intro g n u p mo now hu hp
    rw [generate_orders_batch_eq g n u p mo now hu hp]
    rfl
  · intro d n mx now
    exact generate_events_batch_user_zero d n mx now
  · intro g n u mo now
    exact generate_orders_batch_prod_zero g n u mo now
  · intro uR pR envs h
    constructor <;> simp [run, h]

/-- C10 witness: the theorem applied at concrete populations. -/
theorem generators_population_safety_witness :
    (1 : Int) ≤ 1 ∧
    (generate_events_batch zeroEventDraws 0 1 0 0).isSome = true ∧
    (generate_orders_batch zeroOrderDraws 0 1 1 0 0).isSome = true ∧
    (get_user_count SinkResult.err = 0 ∨
      get_product_count SinkResult.err = 0) ∧
    ((run SinkResult.err SinkResult.err []).loop_entered = false ∧
     (run SinkResult.err SinkResult.err []).batches_generated = 0) :=
  ⟨le_refl 1,
    generators_population_safety.1 zeroEventDraws 0 1 0 0 (le_refl 1),
    generators_population_safety.2.1 zeroOrderDraws 0 1 1 0 0 (le_refl 1)
      (le_refl 1),
    Or.inl rfl,
    generators_population_safety.2.2.2.2 SinkResult.err SinkResult.err []
      (Or.inl rfl)⟩

end StreamRealtime
